import Mathlib

/-!
# Shallow embedding of `find_moving_objects` (src/src/laserscan_interpreter.cpp)

Doubles are modelled as exact rationals (`ℚ`).  The file-scope mutable
globals `root_1`/`root_2` of the C++ translation unit are made explicit as a
`ScorerGlobals` record threaded through the functions that read or write
them.  The callback-swapping ingress of the node is modelled as a state
machine whose state names the currently subscribed callback.
-/

namespace FindMovingObjects

/-- The subset of `BankArgument` fields read or written by the code under
verification (`laserscan_interpreter.cpp`): the confidence parameters, the
bank size, and the string fields mutated by `laserScanArrayCallbackFirst`.
`topic_objects` is a `BankArgument` string field set in `onInit` but never
touched by the array suffix loop. -/
structure BankArgument where
  ema_alpha : ℚ
  base_confidence : ℚ
  nr_scans_in_bank : Int
  topic_ema : String
  topic_objects_closest_point_markers : String
  topic_objects_velocity_arrows : String
  topic_objects_delta_position_lines : String
  topic_objects_width_lines : String
  topic_objects : String
  velocity_arrow_ns : String
  delta_position_line_ns : String
  width_line_ns : String
  node_name_suffix : String
  deriving Repr, DecidableEq, Inhabited

/-- The only `MovingObject` field `calculateConfidence` reads. -/
structure MovingObject where
  seen_width : ℚ
  deriving Repr, DecidableEq, Inhabited

/-- `const double a = -10 / 3;` — the initializer is C++ *integer* division
(both operands are `int`), which truncates toward zero, so the stored double
is `-3.0`, not `-10/3`.  Modelled with `Int.tdiv`, Lean's
truncate-toward-zero division, to match C++ `/` on `int`. -/
def a : ℚ := ((Int.tdiv (-10) 3 : Int) : ℚ)

/-- The file-scope mutable globals
`double root_1=0.35, root_2=0.65;` read by `Bank::calculateConfidence` and
written by `hzCalculationCallback`. -/
structure ScorerGlobals where
  root_1 : ℚ
  root_2 : ℚ
  deriving Repr, DecidableEq, Inhabited

/-- Their initial values `0.35` / `0.65`. -/
def initialGlobals : ScorerGlobals := ⟨35/100, 65/100⟩

/-- `Bank::calculateConfidence`.  The C++ function reads the globals
`root_1`, `root_2`; they are passed here explicitly as `g`.
`fabsf` is modelled as exact absolute value. -/
def calculateConfidence (g : ScorerGlobals) (mo : MovingObject)
    (ba : BankArgument) (dt : ℚ) (mo_old_width : ℚ)
    (transform_old_time_map_frame_success : Bool)
    (transform_new_time_map_frame_success : Bool)
    (transform_old_time_fixed_frame_success : Bool)
    (transform_new_time_fixed_frame_success : Bool)
    (transform_old_time_base_frame_success : Bool)
    (transform_new_time_base_frame_success : Bool) : ℚ :=
  ba.ema_alpha *
    (ba.base_confidence +
     (if transform_old_time_map_frame_success &&
         transform_new_time_map_frame_success &&
         transform_old_time_fixed_frame_success &&
         transform_new_time_fixed_frame_success &&
         transform_old_time_base_frame_success &&
         transform_new_time_base_frame_success then (1:ℚ)/2 else 0) +
     a * (dt - g.root_1) * (dt - g.root_2) +
     (-5 * |mo.seen_width - mo_old_width|))

/-- The confidence formula as the specification states it, with the
coefficient being the exact rational `-10/3` ("`a = -10/3` fixed").
Stated from the spec's words, to be compared with `calculateConfidence`. -/
def specConfidence (g : ScorerGlobals) (mo : MovingObject)
    (ba : BankArgument) (dt : ℚ) (mo_old_width : ℚ)
    (f1 f2 f3 f4 f5 f6 : Bool) : ℚ :=
  ba.ema_alpha *
    (ba.base_confidence +
     (if f1 && f2 && f3 && f4 && f5 && f6 then (1:ℚ)/2 else 0) +
     (-10/3 : ℚ) * (dt - g.root_1) * (dt - g.root_2) +
     (-5 * |mo.seen_width - mo_old_width|))

/-- The C++ value of `a` is `-3`. -/
theorem a_eq : a = -3 := by decide

/-! ## Calibrator arithmetic (`hzCalculationCallback`, lines 412–428) -/

/-- A C++ cast `(long)` applied to a double: truncation toward zero. -/
def cppTrunc (q : ℚ) : Int := if 0 ≤ q then ⌊q⌋ else ⌈q⌉

/-- The bank size computed by `hzCalculationCallback` before the sanity
check:
`nr_scans_in_bank = nr_scans - ((long) nr_scans) == 0.0 ? nr_scans + 1 : ceil(nr_scans);`
with `nr_scans = optimize_nr_scans_in_bank * hz`.  The double result
(integral in both branches) is stored into the `int` field, a
truncating cast. -/
def computedNrScans (optimize_nr_scans_in_bank hz : ℚ) : Int :=
  let nr_scans := optimize_nr_scans_in_bank * hz
  cppTrunc (if nr_scans - (cppTrunc nr_scans : ℚ) = 0 then nr_scans + 1
            else (⌈nr_scans⌉ : ℚ))

/-- The bank size after the sanity check
`if (nr_scans_in_bank < 2) nr_scans_in_bank = 2;`. -/
def finalNrScans (optimize_nr_scans_in_bank hz : ℚ) : Int :=
  let n := computedNrScans optimize_nr_scans_in_bank hz
  if n < 2 then 2 else n

/-! ## Ingress state machines

The node rebinds its subscriber callback as it moves through
`waitForFirstMessageCallback → hzCalculationCallback →
laserScanCallbackFirst → laserScanCallback` (the warm-up path), or starts
directly at `laserScanCallbackFirst` when `optimize_nr_scans_in_bank` is
zero.  The state of the machine names the currently subscribed callback
and carries the member variables the callbacks read and write. -/

/-- The callback currently bound to the subscriber `sub`. -/
inductive Callback
  | waitForFirstMessage
  | hzCalculation
  | laserScanFirst
  | laserScan
  deriving Repr, DecidableEq, Inhabited

/-- Configuration read once in `onInit`: the optimize target (seconds), the
warm-up ceilings `max_time` / `max_messages`, and the configured
`nr_scans_in_bank` parameter. -/
structure Config where
  optimize_nr_scans_in_bank : ℚ
  max_time : ℚ
  max_messages : Int
  nr_scans_in_bank : Int
  deriving Repr, DecidableEq, Inhabited

/-- State of the single-scan node: bound callback, warm-up counters, the
scorer globals, and the bank argument's `nr_scans_in_bank` field. -/
structure NodeState where
  cb : Callback
  received_messages : Int
  start_time : ℚ
  globals : ScorerGlobals
  nr_scans_in_bank : Int
  deriving Repr, DecidableEq, Inhabited

/-- One arriving `LaserScan` message: its wall-clock arrival time and the
return codes of `bank->init` / `bank->addMessage` were it passed to them
(the bank internals are outside this translation unit; the ingress only
tests the codes against `0`). -/
structure ScanEvent where
  time : ℚ
  initResult : Int
  addResult : Int
  deriving Repr, DecidableEq, Inhabited

/-- `onInit` of the single-scan node: reads parameters and subscribes
`waitForFirstMessageCallback` when `optimize_nr_scans_in_bank != 0.0`,
else `laserScanCallbackFirst`.  `received_messages` is `0` from the
constructor; the scorer globals are at their file-scope initial values. -/
def onInit (cfg : Config) : NodeState :=
  { cb := if cfg.optimize_nr_scans_in_bank ≠ 0 then .waitForFirstMessage
          else .laserScanFirst
    received_messages := 0
    start_time := 0
    globals := initialGlobals
    nr_scans_in_bank := cfg.nr_scans_in_bank }

/-- One callback invocation of the single-scan node on an arriving
message, following the bound callback:
* `waitForFirstMessageCallback`: records `start_time`, rebinds to
  `hzCalculationCallback`;
* `hzCalculationCallback`: increments `received_messages`; when a ceiling
  is reached computes `hz`, the bank size and the roots and rebinds to
  `laserScanCallbackFirst`;
* `laserScanCallbackFirst`: on `bank->init(...) != 0` returns without any
  change, otherwise rebinds to `laserScanCallback`;
* `laserScanCallback`: feeds the bank; no ingress-visible state change. -/
def stepSingle (cfg : Config) (s : NodeState) (e : ScanEvent) : NodeState :=
  match s.cb with
  | .waitForFirstMessage =>
      { s with start_time := e.time, cb := .hzCalculation }
  | .hzCalculation =>
      let received := s.received_messages + 1
      let elapsed := e.time - s.start_time
      if cfg.max_time ≤ elapsed ∨ cfg.max_messages ≤ received then
        let hz := (received : ℚ) / elapsed
        { s with
          received_messages := received
          nr_scans_in_bank := finalNrScans cfg.optimize_nr_scans_in_bank hz
          globals := ⟨cfg.optimize_nr_scans_in_bank * (6/10),
                      cfg.optimize_nr_scans_in_bank * (14/10)⟩
          cb := .laserScanFirst }
      else
        { s with received_messages := received }
  | .laserScanFirst =>
      if e.initResult ≠ 0 then s
      else { s with cb := .laserScan }
  | .laserScan => s

/-- A whole trace of arriving messages. -/
def runSingle (cfg : Config) (s : NodeState) (es : List ScanEvent) :
    NodeState :=
  es.foldl (stepSingle cfg) s

/-- The confidence computed inside a node in state `s`: the C++ member
function reads the process globals `root_1`/`root_2`. -/
def nodeConfidence (s : NodeState) (mo : MovingObject) (ba : BankArgument)
    (dt : ℚ) (mo_old_width : ℚ) (f1 f2 f3 f4 f5 f6 : Bool) : ℚ :=
  calculateConfidence s.globals mo ba dt mo_old_width f1 f2 f3 f4 f5 f6

/-! ## The scan-array variant (`LSARRAY`) -/

/-- The per-stream suffix modification of `laserScanArrayCallbackFirst`
(lines 230–244): `append_str = "_" + std::to_string(i)` is appended to the
five visualization topic names, the three marker namespaces, and
`node_name_suffix`.  No other field is touched — in particular,
`topic_objects` is not. -/
def appendSuffix (b : BankArgument) (i : Nat) : BankArgument :=
  let append_str := "_" ++ toString i
  { b with
    topic_ema := b.topic_ema ++ append_str
    topic_objects_closest_point_markers :=
      b.topic_objects_closest_point_markers ++ append_str
    topic_objects_velocity_arrows :=
      b.topic_objects_velocity_arrows ++ append_str
    topic_objects_delta_position_lines :=
      b.topic_objects_delta_position_lines ++ append_str
    topic_objects_width_lines := b.topic_objects_width_lines ++ append_str
    velocity_arrow_ns := b.velocity_arrow_ns ++ append_str
    delta_position_line_ns := b.delta_position_line_ns ++ append_str
    width_line_ns := b.width_line_ns ++ append_str
    node_name_suffix := b.node_name_suffix ++ append_str }

/-- State of the array node: bound callback, warm-up counters, scorer
globals, the number of allocated banks (`banks.size()`), and the
`bank_arguments` vector (`[bank_argument]` after `onInit`). -/
structure ArrayState where
  cb : Callback
  received_messages : Int
  start_time : ℚ
  globals : ScorerGlobals
  banks : Nat
  bank_arguments : List BankArgument
  deriving Repr, DecidableEq, Inhabited

/-- One arriving `LaserScanArray` message: arrival time and one result
code per sub-message (its length is `msg->msgs.size()`). -/
structure ArrayEvent where
  time : ℚ
  msgs : List Int
  deriving Repr, DecidableEq, Inhabited

/-- `hzCalculationCallback` (array variant) stores the computed size into
`bank_arguments[0].nr_scans_in_bank`. -/
def setNrScansHead (args : List BankArgument) (n : Int) :
    List BankArgument :=
  match args with
  | [] => []
  | b :: rest => { b with nr_scans_in_bank := n } :: rest

/-- `laserScanArrayCallbackFirst`: when `banks.size() == 0`, resizes
`bank_arguments` to `nr_msgs` entries, copies `bank_arguments[0]` into
every entry (first loop), and appends `"_" + i` to the string fields of
entry `i` (second loop) — the two loops compose to mapping
`appendSuffix bank_arguments[0] i` over the indices.  It then calls
`banks[i]->init` (return value unused) and rebinds to
`laserScanArrayCallback` *regardless of init outcome* (source comment:
"Now change callback regardless of init outcome"). -/
def laserScanArrayCallbackFirst (s : ArrayState) (e : ArrayEvent) :
    ArrayState :=
  let nr_msgs := e.msgs.length
  let s' :=
    if s.banks = 0 then
      { s with
        banks := nr_msgs
        bank_arguments :=
          (List.range nr_msgs).map
            (fun i => appendSuffix (s.bank_arguments.headD default) i) }
    else s
  { s' with cb := .laserScan }

/-- One callback invocation of the array node.  `laserScanArrayCallback`
skips a sub-message whose `addMessage` code is non-zero and otherwise
feeds the bank; neither path touches the ingress-visible state. -/
def stepArray (cfg : Config) (s : ArrayState) (e : ArrayEvent) :
    ArrayState :=
  match s.cb with
  | .waitForFirstMessage =>
      { s with start_time := e.time, cb := .hzCalculation }
  | .hzCalculation =>
      let received := s.received_messages + 1
      let elapsed := e.time - s.start_time
      if cfg.max_time ≤ elapsed ∨ cfg.max_messages ≤ received then
        let hz := (received : ℚ) / elapsed
        { s with
          received_messages := received
          bank_arguments :=
            setNrScansHead s.bank_arguments
              (finalNrScans cfg.optimize_nr_scans_in_bank hz)
          globals := ⟨cfg.optimize_nr_scans_in_bank * (6/10),
                      cfg.optimize_nr_scans_in_bank * (14/10)⟩
          cb := .laserScanFirst }
      else
        { s with received_messages := received }
  | .laserScanFirst => laserScanArrayCallbackFirst s e
  | .laserScan => s

/-- A whole trace of arriving array messages. -/
def runArray (cfg : Config) (s : ArrayState) (es : List ArrayEvent) :
    ArrayState :=
  es.foldl (stepArray cfg) s

/-- `onInit` of the array node: like the single-scan one, with
`bank_arguments = [bank_argument]` and no banks allocated yet. -/
def onInitArray (cfg : Config) (bank_argument : BankArgument) :
    ArrayState :=
  { cb := if cfg.optimize_nr_scans_in_bank ≠ 0 then .waitForFirstMessage
          else .laserScanFirst
    received_messages := 0
    start_time := 0
    globals := initialGlobals
    banks := 0
    bank_arguments := [bank_argument] }

/-! ## Concrete bank arguments used by the witnesses and counterexamples -/

/-- A bank argument with the given confidence weights, bank size `0` and
empty strings everywhere else. -/
def mkBA (ema_alpha base_confidence : ℚ) : BankArgument :=
  ⟨ema_alpha, base_confidence, 0, "", "", "", "", "", "", "", "", "", ""⟩

/-- A bank argument with full sensor trust weight: `ema_alpha = 1`,
`base_confidence = 0`. -/
def baTest : BankArgument := mkBA 1 0

/-- The argument of the spec's parabola scenario: `base_confidence = 0.4`,
`ema_alpha = 1.0`. -/
def baParabola : BankArgument := mkBA 1 (2/5)

/-- A bank argument with a negative smoothing factor. -/
def baNeg : BankArgument := mkBA (-1) 0

/-! ## Shared structural lemmas -/

/-- Truncation of an integer-valued rational is that integer. -/
theorem cppTrunc_intCast (n : ℤ) : cppTrunc (n : ℚ) = n := by
  unfold cppTrunc
  split <;> simp

/-- After the warm-up path has been left (`laserScanCallbackFirst` or
`laserScanCallback` bound), one step keeps the callback out of warm-up
and does not touch the scorer globals or the bank size. -/
theorem stepSingle_frozen (cfg : Config) (s : NodeState) (e : ScanEvent)
    (h : s.cb = .laserScanFirst ∨ s.cb = .laserScan) :
    ((stepSingle cfg s e).cb = .laserScanFirst ∨
      (stepSingle cfg s e).cb = .laserScan) ∧
    (stepSingle cfg s e).globals = s.globals ∧
    (stepSingle cfg s e).nr_scans_in_bank = s.nr_scans_in_bank := by
  rcases h with h | h
  · simp only [stepSingle, h]
    split
    · exact ⟨Or.inl h, rfl, rfl⟩
    · exact ⟨Or.inr rfl, rfl, rfl⟩
  · simp [stepSingle, h]

/-- Trace version of `stepSingle_frozen`. -/
theorem runSingle_frozen (cfg : Config) (es : List ScanEvent) :
    ∀ s : NodeState, (s.cb = .laserScanFirst ∨ s.cb = .laserScan) →
    ((runSingle cfg s es).cb = .laserScanFirst ∨
      (runSingle cfg s es).cb = .laserScan) ∧
    (runSingle cfg s es).globals = s.globals ∧
    (runSingle cfg s es).nr_scans_in_bank = s.nr_scans_in_bank := by
  induction es with
  | nil => exact fun s h => ⟨h, rfl, rfl⟩
  | cons e es ih =>
    intro s h
    have hs := stepSingle_frozen cfg s e h
    have ht := ih (stepSingle cfg s e) hs.1
    exact ⟨ht.1, ht.2.1.trans hs.2.1, ht.2.2.trans hs.2.2⟩

/-- The completing `hzCalculationCallback` invocation: its effect on the
state when a warm-up ceiling is reached. -/
theorem stepSingle_hz_done (cfg : Config) (s : NodeState) (e : ScanEvent)
    (hcb : s.cb = .hzCalculation)
    (hdone : cfg.max_time ≤ e.time - s.start_time ∨
             cfg.max_messages ≤ s.received_messages + 1) :
    stepSingle cfg s e =
      { s with
        received_messages := s.received_messages + 1
        nr_scans_in_bank :=
          finalNrScans cfg.optimize_nr_scans_in_bank
            (((s.received_messages + 1 : Int) : ℚ) / (e.time - s.start_time))
        globals := ⟨cfg.optimize_nr_scans_in_bank * (6/10),
                    cfg.optimize_nr_scans_in_bank * (14/10)⟩
        cb := .laserScanFirst } := by
  simp only [stepSingle, hcb]
  rw [if_pos hdone]

/-! ## Claim C1 -/

/-- Claim C1, counterexample: at `dt = 0` with default roots, equal widths,
all transforms succeeding, `ema_alpha = 1` and `base_confidence = 0`,
`calculateConfidence` returns `-73/400` (coefficient `-3`), while the
spec's formula with `a = -10/3` yields `-31/120`: the claim as stated is
false of the code. -/
theorem C1_counterexample :
    calculateConfidence initialGlobals ⟨0⟩ baTest 0 0
        true true true true true true ≠
      specConfidence initialGlobals ⟨0⟩ baTest 0 0
        true true true true true true := by
  norm_num [calculateConfidence, specConfidence, a_eq, initialGlobals,
    baTest, mkBA]

/-- Claim C1 as amended: for every `MovingObject`, `BankArgument`, roots,
`dt`, old width, and six transform-success flags, `calculateConfidence`
returns exactly `ema_alpha * (base_confidence + (0.5 if all six flags
else 0.0) + a*(dt - root_1)*(dt - root_2) - 5*|new_width - old_width|)`
with the coefficient `a` equal to `-3`, the value the C++ integer
division `-10 / 3` actually stores. -/
theorem C1_amended (g : ScorerGlobals) (mo : MovingObject)
    (ba : BankArgument) (dt mo_old_width : ℚ) (f1 f2 f3 f4 f5 f6 : Bool) :
    calculateConfidence g mo ba dt mo_old_width f1 f2 f3 f4 f5 f6 =
      ba.ema_alpha *
        (ba.base_confidence +
         (if f1 && f2 && f3 && f4 && f5 && f6 then (1:ℚ)/2 else 0) +
         (-3) * (dt - g.root_1) * (dt - g.root_2) +
         (-5 * |mo.seen_width - mo_old_width|)) := by
  simp only [calculateConfidence, a_eq]

/-! ## Claim C3 -/

/-- Claim C3: for every fixed `MovingObject`, `BankArgument`, roots, `dt`
and old width, the confidence with all six transform-success flags true
exceeds the confidence with at least one flag false by exactly
`0.5 * ema_alpha`. -/
theorem C3_transform_bonus (g : ScorerGlobals) (mo : MovingObject)
    (ba : BankArgument) (dt mo_old_width : ℚ) (f1 f2 f3 f4 f5 f6 : Bool)
    (h : (f1 && f2 && f3 && f4 && f5 && f6) = false) :
    calculateConfidence g mo ba dt mo_old_width
        true true true true true true -
      calculateConfidence g mo ba dt mo_old_width f1 f2 f3 f4 f5 f6 =
      ba.ema_alpha * (1/2) := by
  simp only [calculateConfidence, h, Bool.and_self, if_true, if_false,
    Bool.false_eq_true]
  ring

/-- Witness for C3 at a concrete input: one failing map-frame flag. -/
theorem C3_transform_bonus_witness :
    (false && true && true && true && true && true) = false ∧
    calculateConfidence initialGlobals ⟨0⟩ baTest 0 0
        true true true true true true -
      calculateConfidence initialGlobals ⟨0⟩ baTest 0 0
        false true true true true true = baTest.ema_alpha * (1/2) :=
  ⟨by decide,
   C3_transform_bonus initialGlobals ⟨0⟩ baTest 0 0
     false true true true true true (by decide)⟩

/-! ## Claim C4 -/

/-- Claim C4, counterexample: with `ema_alpha = -1` (all other inputs
fixed), `dt = 1/2` sits at the midpoint of the default roots while
`dt = 1` is farther from it, yet the confidence at `1/2` is *smaller*:
the claimed monotonicity does not hold for every fixed assignment of the
remaining inputs. -/
theorem C4_counterexample :
    |(1:ℚ)/2 - (initialGlobals.root_1 + initialGlobals.root_2)/2| ≤
      |(1:ℚ) - (initialGlobals.root_1 + initialGlobals.root_2)/2| ∧
    calculateConfidence initialGlobals ⟨0⟩ baNeg (1/2) 0
        true true true true true true <
      calculateConfidence initialGlobals ⟨0⟩ baNeg 1 0
        true true true true true true := by
  constructor
  · norm_num [initialGlobals]
  · norm_num [calculateConfidence, a_eq, initialGlobals, baNeg, mkBA]

/-- Claim C4 as amended: holding all inputs except `dt` fixed and assuming
the smoothing factor `ema_alpha` is nonnegative, `calculateConfidence` is
monotonically non-increasing in `|dt - midpoint(root_1, root_2)|`; and,
as the claim instantiates it, with `base_confidence = 0.4`,
`ema_alpha = 1.0`, all six transforms succeeding, equal widths and the
default roots `0.35`/`0.65`, the confidence at `dt = 0.5` exceeds the
confidence at `dt = 0.1` and at `dt = 1.0`. -/
theorem C4_amended :
    (∀ (g : ScorerGlobals) (mo : MovingObject) (ba : BankArgument)
       (mo_old_width dt1 dt2 : ℚ) (f1 f2 f3 f4 f5 f6 : Bool),
       0 ≤ ba.ema_alpha →
       |dt1 - (g.root_1 + g.root_2)/2| ≤ |dt2 - (g.root_1 + g.root_2)/2| →
       calculateConfidence g mo ba dt2 mo_old_width f1 f2 f3 f4 f5 f6 ≤
         calculateConfidence g mo ba dt1 mo_old_width f1 f2 f3 f4 f5 f6) ∧
    calculateConfidence initialGlobals ⟨0⟩ baParabola (1/10) 0
        true true true true true true <
      calculateConfidence initialGlobals ⟨0⟩ baParabola (1/2) 0
        true true true true true true ∧
    calculateConfidence initialGlobals ⟨0⟩ baParabola 1 0
        true true true true true true <
      calculateConfidence initialGlobals ⟨0⟩ baParabola (1/2) 0
        true true true true true true := by
  refine ⟨?_,
    by norm_num [calculateConfidence, a_eq, initialGlobals, baParabola, mkBA],
    by norm_num [calculateConfidence, a_eq, initialGlobals, baParabola, mkBA]⟩
  intro g mo ba w dt1 dt2 f1 f2 f3 f4 f5 f6 hema habs
  have h2 := mul_self_le_mul_self
    (abs_nonneg (dt1 - (g.root_1 + g.root_2)/2)) habs
  rw [abs_mul_abs_self, abs_mul_abs_self] at h2
  have key : (-3:ℚ) * (dt2 - g.root_1) * (dt2 - g.root_2) ≤
      (-3:ℚ) * (dt1 - g.root_1) * (dt1 - g.root_2) := by nlinarith [h2]
  simp only [calculateConfidence, a_eq]
  apply mul_le_mul_of_nonneg_left _ hema
  linarith [key]

/-- Witness for the monotone part of C4 at a concrete input:
`dt1 = 0.5`, `dt2 = 1`, default roots, `ema_alpha = 1`. -/
theorem C4_amended_witness :
    (0:ℚ) ≤ baParabola.ema_alpha ∧
    |(1:ℚ)/2 - (initialGlobals.root_1 + initialGlobals.root_2)/2| ≤
      |(1:ℚ) - (initialGlobals.root_1 + initialGlobals.root_2)/2| ∧
    calculateConfidence initialGlobals ⟨0⟩ baParabola 1 0
        true true true true true true ≤
      calculateConfidence initialGlobals ⟨0⟩ baParabola (1/2) 0
        true true true true true true :=
  ⟨by norm_num [baParabola, mkBA], by norm_num [initialGlobals],
   C4_amended.1 initialGlobals ⟨0⟩ baParabola 0 (1/2) 1
     true true true true true true (by norm_num [baParabola, mkBA])
     (by norm_num [initialGlobals])⟩

/-! ## Claim C5 -/

/-- Claim C5, counterexample: identical listed inputs, but the confidence
differs before and after the calibration step has run (the hz-calculation
callback reassigns the globals `root_1`/`root_2` that
`Bank::calculateConfidence` reads), so the result is *not* independent of
whether calibration has run. -/
theorem C5_counterexample :
    nodeConfidence ⟨.hzCalculation, 0, 0, initialGlobals, 10⟩
        ⟨0⟩ baTest 0 0 true true true true true true ≠
      nodeConfidence
        (stepSingle ⟨1, 1, 1, 10⟩ ⟨.hzCalculation, 0, 0, initialGlobals, 10⟩
          ⟨1, 0, 0⟩)
        ⟨0⟩ baTest 0 0 true true true true true true := by
  norm_num [nodeConfidence, calculateConfidence, stepSingle, a_eq,
    initialGlobals, baTest, mkBA]

/-- Claim C5 as amended: `calculateConfidence` has no side effects and is
a pure function of its listed inputs *together with the global roots
`root_1`/`root_2`*: any two node states with equal scorer globals yield
the same confidence on identical listed inputs, regardless of every other
component of the node state — but the globals themselves are reassigned
when calibration runs. -/
theorem C5_amended (s s' : NodeState) (mo : MovingObject)
    (ba : BankArgument) (dt mo_old_width : ℚ) (f1 f2 f3 f4 f5 f6 : Bool)
    (h : s.globals = s'.globals) :
    nodeConfidence s mo ba dt mo_old_width f1 f2 f3 f4 f5 f6 =
      nodeConfidence s' mo ba dt mo_old_width f1 f2 f3 f4 f5 f6 := by
  simp only [nodeConfidence, h]

/-- Witness for C5 as amended: two states equal only in their globals. -/
theorem C5_amended_witness :
    (⟨.hzCalculation, 0, 0, initialGlobals, 10⟩ : NodeState).globals =
      (⟨.laserScan, 7, 3, initialGlobals, 2⟩ : NodeState).globals ∧
    nodeConfidence ⟨.hzCalculation, 0, 0, initialGlobals, 10⟩
        ⟨0⟩ baTest 0 0 true true true true true true =
      nodeConfidence ⟨.laserScan, 7, 3, initialGlobals, 2⟩
        ⟨0⟩ baTest 0 0 true true true true true true :=
  ⟨rfl,
   C5_amended ⟨.hzCalculation, 0, 0, initialGlobals, 10⟩
     ⟨.laserScan, 7, 3, initialGlobals, 2⟩
     ⟨0⟩ baTest 0 0 true true true true true true rfl⟩

/-! ## Claim C2 -/

/-- Claim C2: for every measured rate `hz`, if
`optimize_nr_scans_in_bank * hz` is exactly an integer `n`, the computed
scan count is `n + 1`; if it is non-integral, the computed count is its
ceiling; and after the sanity check the final `nr_scans_in_bank` is at
least `2` in every case. -/
theorem C2_calibrator_boundary (opt hz : ℚ) :
    (∀ n : ℤ, opt * hz = (n : ℚ) → computedNrScans opt hz = n + 1) ∧
    (opt * hz ≠ ((⌊opt * hz⌋ : ℤ) : ℚ) →
      computedNrScans opt hz = ⌈opt * hz⌉) ∧
    2 ≤ finalNrScans opt hz := by
  refine ⟨?_, ?_, ?_⟩
  · intro n hn
    simp only [computedNrScans]
    rw [hn, cppTrunc_intCast, sub_self, if_pos rfl,
      show ((n:ℚ) + 1) = ((n + 1 : ℤ) : ℚ) by push_cast; ring,
      cppTrunc_intCast]
  · intro hne
    have hcond : ¬ (opt * hz - (cppTrunc (opt * hz) : ℚ) = 0) := by
      intro h0
      have hInt : opt * hz = (cppTrunc (opt * hz) : ℚ) := by linarith
      have hfloor : ⌊opt * hz⌋ = cppTrunc (opt * hz) := by
        conv_lhs => rw [hInt]
        exact Int.floor_intCast _
      exact hne (by rw [hfloor]; exact hInt)
    simp only [computedNrScans]
    rw [if_neg hcond, cppTrunc_intCast]
  · simp only [finalNrScans]
    split <;> omega

/-- Witness for C2: `opt = 1`, `hz = 5` (integral product, count `6`) and
`hz = 11/2` (non-integral product, ceiling). -/
theorem C2_calibrator_boundary_witness :
    computedNrScans 1 5 = 5 + 1 ∧
    computedNrScans 1 (11/2) = ⌈(1:ℚ) * (11/2)⌉ ∧
    2 ≤ finalNrScans 1 5 :=
  ⟨(C2_calibrator_boundary 1 5).1 5 (by norm_num),
   (C2_calibrator_boundary 1 (11/2)).2.1 (by norm_num),
   (C2_calibrator_boundary 1 5).2.2⟩

/-! ## Claim C6 -/

/-- Claim C6: the calibration state machine leaves warm-up exactly once
and irreversibly.  When a warm-up ceiling is reached in the
hz-calculation callback, the rate-probe callback is replaced by the
first-message callback; and from then on, over any further trace of
arriving messages, the ingress never re-binds `waitForFirstMessage` or
`hzCalculation` and never rewrites the scorer roots or the bank size. -/
theorem C6_one_shot_calibration (cfg : Config) (s : NodeState)
    (e : ScanEvent) (hcb : s.cb = .hzCalculation)
    (hdone : cfg.max_time ≤ e.time - s.start_time ∨
             cfg.max_messages ≤ s.received_messages + 1) :
    (stepSingle cfg s e).cb = .laserScanFirst ∧
    ∀ es : List ScanEvent,
      (runSingle cfg (stepSingle cfg s e) es).cb ≠ .waitForFirstMessage ∧
      (runSingle cfg (stepSingle cfg s e) es).cb ≠ .hzCalculation ∧
      (runSingle cfg (stepSingle cfg s e) es).globals =
        (stepSingle cfg s e).globals ∧
      (runSingle cfg (stepSingle cfg s e) es).nr_scans_in_bank =
        (stepSingle cfg s e).nr_scans_in_bank := by
  have hfirst : (stepSingle cfg s e).cb = .laserScanFirst := by
    rw [stepSingle_hz_done cfg s e hcb hdone]
  refine ⟨hfirst, fun es => ?_⟩
  have h := runSingle_frozen cfg es (stepSingle cfg s e) (Or.inl hfirst)
  rcases h with ⟨hcb', hg, hn⟩
  rcases hcb' with h' | h' <;> rw [h'] <;>
    exact ⟨by simp, by simp, hg, hn⟩

/-- Witness for C6: optimize target 1 s, ceilings 1 s / 1 message; the
first probed message completes calibration and a further message leaves
everything frozen. -/
theorem C6_one_shot_calibration_witness :
    (stepSingle ⟨1, 1, 1, 10⟩ ⟨.hzCalculation, 0, 0, initialGlobals, 10⟩
        ⟨1, 0, 0⟩).cb = .laserScanFirst ∧
    (runSingle ⟨1, 1, 1, 10⟩
        (stepSingle ⟨1, 1, 1, 10⟩ ⟨.hzCalculation, 0, 0, initialGlobals, 10⟩
          ⟨1, 0, 0⟩) [⟨2, 0, 0⟩]).globals =
      (stepSingle ⟨1, 1, 1, 10⟩ ⟨.hzCalculation, 0, 0, initialGlobals, 10⟩
        ⟨1, 0, 0⟩).globals := by
  have h := C6_one_shot_calibration ⟨1, 1, 1, 10⟩
    ⟨.hzCalculation, 0, 0, initialGlobals, 10⟩ ⟨1, 0, 0⟩ rfl
    (Or.inr (by norm_num))
  exact ⟨h.1, (h.2 [⟨2, 0, 0⟩]).2.2.1⟩

/-! ## Claim C7 -/

/-- Claim C7: when warm-up ends — at the first message for which the
elapsed time reaches `max_time` or the received-message count reaches
`max_messages` — the node computes `hz = received_messages /
elapsed_time`, derives the bank size from it, and sets
`root_1 = optimize_nr_scans_in_bank * 0.6` and
`root_2 = optimize_nr_scans_in_bank * 1.4`. -/
theorem C7_calibration_values (cfg : Config) (s : NodeState)
    (e : ScanEvent) (hcb : s.cb = .hzCalculation)
    (hdone : cfg.max_time ≤ e.time - s.start_time ∨
             cfg.max_messages ≤ s.received_messages + 1) :
    (stepSingle cfg s e).globals.root_1 =
      cfg.optimize_nr_scans_in_bank * (6/10) ∧
    (stepSingle cfg s e).globals.root_2 =
      cfg.optimize_nr_scans_in_bank * (14/10) ∧
    (stepSingle cfg s e).nr_scans_in_bank =
      finalNrScans cfg.optimize_nr_scans_in_bank
        (((s.received_messages + 1 : Int) : ℚ) / (e.time - s.start_time)) ∧
    (stepSingle cfg s e).cb = .laserScanFirst := by
  rw [stepSingle_hz_done cfg s e hcb hdone]
  exact ⟨rfl, rfl, rfl, rfl⟩

/-- Witness for C7: target 2 s, ceilings reached at the first probed
message arriving at `t = 1`. -/
theorem C7_calibration_values_witness :
    (stepSingle ⟨2, 1, 1, 10⟩ ⟨.hzCalculation, 0, 0, initialGlobals, 10⟩
        ⟨1, 0, 0⟩).globals.root_1 = (2:ℚ) * (6/10) ∧
    (stepSingle ⟨2, 1, 1, 10⟩ ⟨.hzCalculation, 0, 0, initialGlobals, 10⟩
        ⟨1, 0, 0⟩).globals.root_2 = (2:ℚ) * (14/10) := by
  have h := C7_calibration_values ⟨2, 1, 1, 10⟩
    ⟨.hzCalculation, 0, 0, initialGlobals, 10⟩ ⟨1, 0, 0⟩ rfl
    (Or.inr (by norm_num))
  exact ⟨h.1, h.2.1⟩

/-! ## Claim C8 -/

/-- A bank argument whose `topic_objects` is non-empty, to observe the
suffix loop. -/
def baObjects : BankArgument :=
  ⟨1, 0, 0, "", "", "", "", "", "objects", "", "", "", ""⟩

/-- Claim C8, counterexample: in the scan-array variant, a first array
message whose (single) stream has a failing init code still switches the
callback away from the first-message callback and allocates the banks —
the state is changed and no retry with the next record happens, so the
claim does not hold in both variants. -/
theorem C8_counterexample :
    (stepArray ⟨0, 1, 1, 10⟩
        ⟨.laserScanFirst, 0, 0, initialGlobals, 0, [baTest]⟩
        ⟨1, [1]⟩).cb ≠ Callback.laserScanFirst ∧
    (stepArray ⟨0, 1, 1, 10⟩
        ⟨.laserScanFirst, 0, 0, initialGlobals, 0, [baTest]⟩
        ⟨1, [1]⟩).banks ≠ 0 := by
  exact ⟨by decide, by decide⟩

/-- Claim C8 as amended: in the single-scan variant, a first record whose
`bank->init` code is non-zero leaves the node state entirely unchanged —
the first-message callback stays bound and initialization is retried on
the next record.  In the scan-array variant, the callback is switched to
the steady callback regardless of the init outcome. -/
theorem C8_amended :
    (∀ (cfg : Config) (s : NodeState) (e : ScanEvent),
       s.cb = .laserScanFirst → e.initResult ≠ 0 →
       stepSingle cfg s e = s) ∧
    (∀ (cfg : Config) (s : ArrayState) (e : ArrayEvent),
       s.cb = .laserScanFirst → (stepArray cfg s e).cb = .laserScan) := by
  constructor
  · intro cfg s e h hne
    simp [stepSingle, h, hne]
  · intro cfg s e h
    simp only [stepArray, h]
    rfl

/-- Witness for C8 as amended: a failing single-scan init at a concrete
state, and the array switch at a concrete state. -/
theorem C8_amended_witness :
    stepSingle ⟨0, 1, 1, 10⟩ ⟨.laserScanFirst, 0, 0, initialGlobals, 10⟩
        ⟨1, 1, 0⟩ =
      ⟨.laserScanFirst, 0, 0, initialGlobals, 10⟩ ∧
    (stepArray ⟨0, 1, 1, 10⟩
        ⟨.laserScanFirst, 0, 0, initialGlobals, 0, [baTest]⟩
        ⟨1, [1]⟩).cb = .laserScan :=
  ⟨C8_amended.1 ⟨0, 1, 1, 10⟩ ⟨.laserScanFirst, 0, 0, initialGlobals, 10⟩
     ⟨1, 1, 0⟩ rfl (by decide),
   C8_amended.2 ⟨0, 1, 1, 10⟩
     ⟨.laserScanFirst, 0, 0, initialGlobals, 0, [baTest]⟩ ⟨1, [1]⟩ rfl⟩

/-! ## Claim C9 -/

/-- Claim C9: the calibrator runs iff `optimize_nr_scans_in_bank` is
non-zero.  `onInit` subscribes the warm-up callback exactly when the
parameter differs from zero (any non-zero value, negative included); when
it is zero the first-message callback is subscribed directly and the
configured `nr_scans_in_bank` and the default roots stay unchanged over
every subsequent trace. -/
theorem C9_optimize_gate (cfg : Config) :
    ((onInit cfg).cb = .waitForFirstMessage ↔
      cfg.optimize_nr_scans_in_bank ≠ 0) ∧
    (cfg.optimize_nr_scans_in_bank = 0 →
      (onInit cfg).cb = .laserScanFirst ∧
      (onInit cfg).nr_scans_in_bank = cfg.nr_scans_in_bank ∧
      ∀ es : List ScanEvent,
        (runSingle cfg (onInit cfg) es).globals = initialGlobals ∧
        (runSingle cfg (onInit cfg) es).nr_scans_in_bank =
          cfg.nr_scans_in_bank) := by
  constructor
  · simp only [onInit]
    split
    · case _ h => simp [h]
    · case _ h => simp [h]
  · intro h
    have hcb : (onInit cfg).cb = .laserScanFirst := by
      simp [onInit, h]
    refine ⟨hcb, rfl, fun es => ?_⟩
    have hf := runSingle_frozen cfg es (onInit cfg) (Or.inl hcb)
    exact ⟨hf.2.1, hf.2.2⟩

/-- Witness for C9: a negative target enters warm-up; a zero target
subscribes the first-message callback directly and leaves the bank size
and roots unchanged over a concrete trace. -/
theorem C9_optimize_gate_witness :
    (onInit ⟨-1, 1, 1, 10⟩).cb = .waitForFirstMessage ∧
    (onInit ⟨0, 1, 1, 10⟩).cb = .laserScanFirst ∧
    (runSingle ⟨0, 1, 1, 10⟩ (onInit ⟨0, 1, 1, 10⟩) [⟨1, 0, 0⟩]).globals =
      initialGlobals :=
  ⟨(C9_optimize_gate ⟨-1, 1, 1, 10⟩).1.mpr (by norm_num),
   ((C9_optimize_gate ⟨0, 1, 1, 10⟩).2 rfl).1,
   (((C9_optimize_gate ⟨0, 1, 1, 10⟩).2 rfl).2.2 [⟨1, 0, 0⟩]).1⟩

/-! ## Claim C10 -/

/-- Claim C10, counterexample: in the first array message the per-stream
argument of stream `1` keeps `topic_objects` unsuffixed — the code
appends `"_1"` to five topic names, three namespaces and the node-name
suffix, but not to every topic name. -/
theorem C10_counterexample :
    ((stepArray ⟨0, 1, 1, 10⟩
        ⟨.laserScanFirst, 0, 0, initialGlobals, 0, [baObjects]⟩
        ⟨1, [0, 0]⟩).bank_arguments.getD 1 default).topic_objects =
      "objects" ∧
    ("objects" : String) ≠ "objects" ++ "_" ++ toString 1 := by
  exact ⟨by decide, by decide⟩

/-- Claim C10 as amended: in the scan-array variant the banks are created
exactly once, on the first array message: their number equals that
message's array length and is never changed by later messages; and for
every stream index `i` the per-stream `BankArgument` is a copy of the
configured stream-0 argument with `"_" + i` appended to the five
visualization topic names, the three namespace strings and the node-name
suffix, all remaining fields — `topic_objects` included — copied
unchanged. -/
theorem C10_banks_once :
    (∀ (cfg : Config) (s : ArrayState) (e : ArrayEvent)
       (arg0 : BankArgument),
       s.cb = .laserScanFirst → s.banks = 0 → s.bank_arguments = [arg0] →
       (stepArray cfg s e).banks = e.msgs.length ∧
       (stepArray cfg s e).cb = .laserScan ∧
       (∀ i : Nat, i < e.msgs.length →
          (stepArray cfg s e).bank_arguments.getD i default =
            appendSuffix arg0 i) ∧
       (∀ i : Nat, i < e.msgs.length →
          ((stepArray cfg s e).bank_arguments.getD i default).topic_objects
            = arg0.topic_objects)) ∧
    (∀ (cfg : Config) (s : ArrayState) (es : List ArrayEvent),
       s.cb = .laserScan → runArray cfg s es = s) := by
  constructor
  · intro cfg s e arg0 hcb hbanks hargs
    have hstep : stepArray cfg s e =
        { s with
          banks := e.msgs.length
          bank_arguments :=
            (List.range e.msgs.length).map (fun i => appendSuffix arg0 i)
          cb := .laserScan } := by
      simp [stepArray, hcb, laserScanArrayCallbackFirst, hbanks, hargs]
    have hget : ∀ i : Nat, i < e.msgs.length →
        (stepArray cfg s e).bank_arguments.getD i default =
          appendSuffix arg0 i := by
      intro i hi
      rw [hstep]
      show ((List.range e.msgs.length).map
          (fun i => appendSuffix arg0 i)).getD i default = appendSuffix arg0 i
      rw [List.getD_eq_getElem?_getD, List.getElem?_map,
        List.getElem?_range hi]
      rfl
    refine ⟨by rw [hstep], by rw [hstep], hget, fun i hi => ?_⟩
    rw [hget i hi]
    rfl
  · intro cfg s es h
    induction es with
    | nil => rfl
    | cons e es ih =>
      have hstep : stepArray cfg s e = s := by simp [stepArray, h]
      show List.foldl (stepArray cfg) (stepArray cfg s e) es = s
      rw [hstep]
      exact ih

/-- Witness for C10 as amended: a concrete two-stream first message and a
concrete later trace. -/
theorem C10_banks_once_witness :
    (stepArray ⟨0, 1, 1, 10⟩
        ⟨.laserScanFirst, 0, 0, initialGlobals, 0, [baObjects]⟩
        ⟨1, [0, 0]⟩).banks = 2 ∧
    (stepArray ⟨0, 1, 1, 10⟩
        ⟨.laserScanFirst, 0, 0, initialGlobals, 0, [baObjects]⟩
        ⟨1, [0, 0]⟩).bank_arguments.getD 1 default =
      appendSuffix baObjects 1 ∧
    runArray ⟨0, 1, 1, 10⟩
        ⟨.laserScan, 2, 0, initialGlobals, 2, [baObjects]⟩ [⟨2, [0, 0]⟩] =
      ⟨.laserScan, 2, 0, initialGlobals, 2, [baObjects]⟩ := by
  have h := C10_banks_once.1 ⟨0, 1, 1, 10⟩
    ⟨.laserScanFirst, 0, 0, initialGlobals, 0, [baObjects]⟩
    ⟨1, [0, 0]⟩ baObjects rfl rfl rfl
  exact ⟨h.1, h.2.2.1 1 (by decide),
    C10_banks_once.2 ⟨0, 1, 1, 10⟩
      ⟨.laserScan, 2, 0, initialGlobals, 2, [baObjects]⟩ [⟨2, [0, 0]⟩] rfl⟩

end FindMovingObjects
